import Mathlib

/-!
# Verification of the quiz-chain solver

A shallow embedding of the core of `solver.py` (the response-handling loop of
the chain orchestrator) and of `tools.py` (`exec_py`, the sandboxed executor,
and the construction of the `submit_answer` call), with theorems checking the
natural-language specification against the code.

Conventions of the embedding:
* Python timestamps and durations are modelled as rationals (`ℚ`).
* A Python local variable that may be *unbound* (referenced before
  assignment) is modelled as an `Option`: `none` means unbound, and reading
  it while unbound raises `UnboundLocalError`.  In `solve_quiz` the locals
  `next_url` and `error_retry_count` are first assigned only inside the loop
  body, so both start unbound.
* Termination of the `while` loop via `break` after the "Quiz Finished" log
  is status `done`; `break` on an unrecoverable error is status `aborted`;
  an uncaught exception escaping `solve_quiz` is status `crashed`.
-/

namespace PuzzleSolver

/-- Terminal/continuation status of the orchestrator loop. -/
inductive LoopStatus where
  | running
  | done
  | aborted
  | crashed
deriving DecidableEq, Repr

/-- The mutable locals of `solve_quiz` that the response-handling code
reads and writes (`solver.py` lines 22, 34-36, 262-311).  `next_url` and
`error_retry_count` are wrapped in an extra `Option` because they start
unbound (they are first assigned only inside branches of the loop body). -/
structure LoopState where
  current_url : String
  retry_count : Nat
  previously_tried : List String
  start_time : ℚ
  next_url : Option (Option String)
  error_retry_count : Option Nat
  status : LoopStatus
deriving DecidableEq, Repr

/-- Result of `json.loads(response_text)` on the submission response:
either the parse raised (`failure`) or it produced an object whose
`correct`, `reason` and `url` fields are read with `.get`. -/
inductive ParseResult where
  | failure
  | parsed (correct : Bool) (reason : Option String) (url : Option String)
deriving DecidableEq, Repr

/-- Initial locals before the first loop iteration (`solver.py` lines 22,
34-36): `retry_count = 0`, `previously_tried_answers = []`,
`start_time = time.time()`; `next_url` and `error_retry_count` unbound. -/
def initState (start_url : String) (t0 : ℚ) : LoopState :=
  { current_url := start_url
    retry_count := 0
    previously_tried := []
    start_time := t0
    next_url := none
    error_retry_count := none
    status := .running }

/-- The string appended to `previously_tried_answers` on a retry
(`solver.py` lines 286-288); a missing reason prints as Python `None`. -/
def triedEntry (answer : String) (reason : Option String) : String :=
  "Previously tried wrong answer: " ++ answer ++ ". Reason: " ++ reason.getD "None"

/-- The `except` handler of the submission-response `try` block
(`solver.py` lines 304-311).  Reading `error_retry_count` while it is
unbound raises `UnboundLocalError`, which escapes `solve_quiz` (`crashed`).
Otherwise: below the bound of 5 the counter is incremented and the loop
re-runs against the same URL; at the bound the loop breaks (`aborted`). -/
def handleParseError (s : LoopState) : LoopState :=
  match s.error_retry_count with
  | none => { s with status := .crashed }
  | some n =>
    if n < 5 then { s with error_retry_count := some (n + 1) }
    else { s with status := .aborted }

/-- Python truthiness of a string (`if next_url:`): nonempty. -/
def truthy (u : String) : Bool := u != ""

/-- Common tail of the correct branch and the non-retry wrong branch
(`solver.py` lines 270-276 and 294-303): record the `url` field of the
response in the local `next_url`, then advance to it if truthy (restarting
`start_time`), else break with the "Quiz Finished" log (`done`). -/
def advanceTo (s : LoopState) (now : ℚ) (url : Option String) : LoopState :=
  match url with
  | some u =>
    if truthy u then { s with current_url := u, start_time := now, next_url := some url }
    else { s with status := .done, next_url := some url }
  | none => { s with status := .done, next_url := some url }

/-- The correct branch (`solver.py` lines 265-276): reset `retry_count`,
`error_retry_count` and `previously_tried_answers`, then advance/finish. -/
def handleCorrect (s : LoopState) (now : ℚ) (url : Option String) : LoopState :=
  advanceTo { s with retry_count := 0, error_retry_count := some 0, previously_tried := [] }
    now url

/-- Python `str.strip()` with no argument: drop leading and trailing
whitespace characters. -/
def pyStrip (s : String) : String :=
  ⟨((s.data.dropWhile Char.isWhitespace).reverse.dropWhile Char.isWhitespace).reverse⟩

/-- Evaluation of the retry condition on `solver.py` line 284:
`((time_taken < 150) and (retry_count < 3) and (approx_time_if_retry < 180))
or (next_url == None) or (next_url.strip() == '')` where
`avg_time_taken = time_taken / (retry_count + 1)` and
`approx_time_if_retry = time_taken + avg_time_taken` (lines 282-283).
The Python `or` short-circuits, so the local `next_url` is only read when
the timing conjunction is false; reading it while unbound raises
`UnboundLocalError` (modelled as `Except.error`).  When `next_url` is bound
to `None`, the equality disjunct short-circuits before `.strip()` is
called. -/
def retryCondEval (t : ℚ) (rc : Nat) (nu : Option (Option String)) : Except Unit Bool :=
  if t < 150 ∧ rc < 3 ∧ t + t / ((rc : ℚ) + 1) < 180 then .ok true
  else
    match nu with
    | none => .error ()
    | some none => .ok true
    | some (some u) => .ok (pyStrip u == "")

/-- The wrong-answer branch (`solver.py` lines 277-303).  `time_taken` is
measured from `start_time`.  If evaluating the retry condition raises
(unbound `next_url`), the exception is caught by the enclosing `except`
handler, i.e. control passes to `handleParseError`.  On retry: increment
`retry_count`, append the tried answer, zero `error_retry_count`, and
`continue` (same URL; `start_time` and `next_url` unchanged).  Otherwise
reset the ledger and advance to the `url` field of the response, or
finish. -/
def handleWrong (s : LoopState) (now : ℚ) (reason : Option String) (url : Option String)
    (answer : String) : LoopState :=
  match retryCondEval (now - s.start_time) s.retry_count s.next_url with
  | .error _ => handleParseError s
  | .ok true =>
    { s with retry_count := s.retry_count + 1
             previously_tried := s.previously_tried ++ [triedEntry answer reason]
             error_retry_count := some 0 }
  | .ok false =>
    advanceTo { s with previously_tried := [], retry_count := 0, error_retry_count := some 0 }
      now url

/-- The whole submission-response handling `try`/`except` block
(`solver.py` lines 262-311), as a function of the current locals, the
current time, the parse result of the response body, and the submitted
answer. -/
def decideStep (s : LoopState) (now : ℚ) (resp : ParseResult) (answer : String) : LoopState :=
  match resp with
  | .failure => handleParseError s
  | .parsed true _ url => handleCorrect s now url
  | .parsed false reason url => handleWrong s now reason url answer

/-- External inputs consumed by one iteration of the `while current_url`
loop (`solver.py` lines 37-311): the context captured from the
`visit_website` tool (`none` if no ToolMessage was found, line 71), the
parsed extraction JSON (`none` if no JSON was found or parsing raised,
lines 111-117), the answer produced by the solving agent, the current time
when the response is handled, and the parse result of the submission
response body. -/
structure IterInputs where
  pageContext : Option String
  extraction : Option String
  answer : String
  now : ℚ
  resp : ParseResult
deriving DecidableEq, Repr

/-- Which of the phases of one iteration actually executed: the
fetch/extract agent run (Steps 1-3), the solving agent run (Step 4), and
the submission (Step 5).  Used to check whether a retry re-fetches the
page. -/
structure IterTrace where
  fetched : Bool
  solved : Bool
  submitted : Bool
deriving DecidableEq, Repr

/-- One full iteration of the `while current_url` loop (`solver.py` lines
37-311).  Every iteration that runs at all begins with the Step 1-3
extraction-agent run (which visits the page); there is no path that enters
the loop body at Step 4.  A missing context or unparseable extraction
response breaks out of the loop (`aborted`); otherwise the iteration
solves, submits, and hands the response to `decideStep`. -/
def loopIter (s : LoopState) (inp : IterInputs) : LoopState × IterTrace :=
  if s.status ≠ .running then (s, ⟨false, false, false⟩)
  else
    match inp.pageContext with
    | none => ({ s with status := .aborted }, ⟨true, false, false⟩)
    | some _ =>
      match inp.extraction with
      | none => ({ s with status := .aborted }, ⟨true, false, false⟩)
      | some _ => (decideStep s inp.now inp.resp inp.answer, ⟨true, true, true⟩)

/-- Run the loop over a list of per-iteration inputs. -/
def loopRun (s : LoopState) (inps : List IterInputs) : LoopState :=
  match inps with
  | [] => s
  | inp :: rest => loopRun (loopIter s inp).1 rest

/-- The hard-coded submission endpoint (`solver.py` line 256). -/
def SUBMIT_ENDPOINT : String := "https://tds-llm-analysis.s-anand.net/submit"

/-- The content of one call to `submit_answer` (`tools.py` line 266): the
target URL, the JSON payload fields (`solver.py` lines 247-252), the
cookie pairs, and the `Referer` header. -/
structure SubmitCall where
  target : String
  payload_email : String
  payload_secret : String
  payload_url : String
  payload_answer : String
  cookies : List (String × String)
  referer : String
deriving DecidableEq, Repr

/-- Construction of the submission call (`solver.py` lines 243-259).  The
`submission_url` found by the extraction agent is in scope
(`submission_details`) but line 256 hard-codes `submit_url`; the payload
carries the email and secret of the caller, the URL of the current link
and the answer; cookies come from the current page context and the referer
is the current link. -/
def mkSubmitCall (email secret current_url answer : String)
    (cookies : List (String × String)) (_extracted_submission_url : String) : SubmitCall :=
  { target := SUBMIT_ENDPOINT
    payload_email := email
    payload_secret := secret
    payload_url := current_url
    payload_answer := answer
    cookies := cookies
    referer := current_url }

/-- What `exec(code, safe_globals)` would do on a fragment that is actually
executed (`tools.py` line 554): either some `Exception` is raised with a
message, or execution finishes, and `str(safe_globals.get("result", ...))`
is either the `str()` of the bound result value or absent.  The embedding
takes this as an oracle parameter, since what is being verified is the
control flow of the executor itself, not CPython. -/
inductive FragOutcome where
  | raised (msg : String)
  | finished (result : Option String)
deriving DecidableEq, Repr

/-- The sentinel returned when the fragment set no `result` variable
(`tools.py` line 556). -/
def NO_RESULT_MSG : String :=
  "Code executed successfully, but no \x27result\x27 variable was set."

/-- The rejection message for fragments containing `"import "`
(`tools.py` line 347). -/
def REJECT_MSG : String :=
  "Rejected: import statements are not allowed. Use pre-imported modules. Available: zipfile, tarfile, gzip, shutil, os, glob, tempfile, pathlib, io, csv, json, pickle, collections, itertools, functools, copy, heapq, bisect, array, math, random, statistics, decimal, fractions, re, string, textwrap, datetime, time, calendar, urllib, hashlib, hmac, secrets, sys, platform, subprocess, operator, typing, dataclasses, enum, contextlib, warnings, logging, base64, pd, np, httpx, geopy, fitz, folium, scipy, sknetwork, networkx, Image, etc."

/-- Boolean test that `pat` is an initial segment of `s`. -/
def charsStartWith : List Char → List Char → Bool
  | [], _ => true
  | _ :: _, [] => false
  | a :: as, b :: bs => a == b && charsStartWith as bs

/-- Boolean test that `pat` occurs contiguously anywhere in `s`. -/
def charsContain (pat : List Char) : List Char → Bool
  | [] => pat.isEmpty
  | c :: rest => charsStartWith pat (c :: rest) || charsContain pat rest

/-- The purely textual gate on `tools.py` line 346: the Python expression
`"import " in code`, i.e. substring containment of the seven characters
of `"import "` (trailing space included) anywhere in the fragment text. -/
def containsImportStmt (code : String) : Bool :=
  charsContain "import ".toList code.toList

/-- The body of `exec_py` (`tools.py` lines 296-558): the substring gate
runs before anything is executed; past the gate, the fragment runs and the
executor returns the `str()` of the `result` binding, the no-result
sentinel, or `"Error: " + str(e)` if an `Exception` was raised.  Total by
construction: the Python `try`/`except Exception` boundary is modelled by
the `raised` case, so no fragment outcome escapes as an exception. -/
def exec_py (code : String) (run : FragOutcome) : String :=
  if containsImportStmt code then REJECT_MSG
  else
    match run with
    | .raised msg => "Error: " ++ msg
    | .finished (some v) => v
    | .finished none => NO_RESULT_MSG

/-- The keys of the `safe_builtins` dict (`tools.py` lines 426-471): the
base operations exposed as `__builtins__` inside the sandbox. -/
def safeBuiltinsNames : List String :=
  ["int", "float", "complex", "str", "bytes", "bytearray", "bool", "list",
   "tuple", "set", "frozenset", "dict",
   "len", "abs", "min", "max", "sum", "round", "sorted", "reversed",
   "enumerate", "range", "zip", "map", "filter",
   "all", "any", "isinstance", "issubclass",
   "ord", "chr", "hex", "oct",
   "print", "repr"]

/-- The module/alias keys of the `safe_globals` dict other than
`__builtins__` (`tools.py` lines 472-552): the pre-bound capability
handles available by name inside the sandbox. -/
def safeGlobalsModuleNames : List String :=
  ["base64", "zipfile", "tarfile", "gzip", "shutil", "os", "glob",
   "tempfile", "pathlib", "io",
   "csv", "json", "pickle",
   "collections", "itertools", "functools", "copy", "heapq", "bisect", "array",
   "math", "random", "statistics", "decimal", "fractions",
   "re", "string", "textwrap",
   "datetime", "time", "calendar",
   "urllib", "hashlib", "hmac", "secrets",
   "sys", "platform", "subprocess",
   "operator", "typing", "dataclasses", "enum", "contextlib", "warnings",
   "logging",
   "pd", "np", "httpx", "geopy", "fitz", "pymupdf", "folium", "scipy",
   "sknetwork", "networkx", "Image", "ImageDraw", "ImageFont"]

/-- Every name resolvable from inside an executed fragment: the global
bindings plus the builtins table (`exec(code, safe_globals)` resolves
globals first, then `__builtins__`). -/
def sandboxNames : List String := safeGlobalsModuleNames ++ safeBuiltinsNames

/-- Names that give a Python fragment process-control capability (spawning
or controlling processes, terminating the interpreter).  This
classification comes from Python semantics, not from this repository:
`subprocess` runs child processes, `os` exposes `system`, `kill` and
`fork`, `sys` exposes `exit`, and `signal` and `multiprocessing` control
processes. -/
def processControlNames : List String :=
  ["subprocess", "os", "sys", "signal", "multiprocessing", "exit", "quit"]

/-- Names that give a Python fragment reflective capability (runtime code
evaluation or attribute introspection/fabrication).  Classification from
Python semantics. -/
def reflectionNames : List String :=
  ["eval", "exec", "compile", "getattr", "setattr", "delattr", "vars",
   "dir", "globals", "locals", "type", "super", "object", "memoryview",
   "breakpoint", "inspect", "ctypes"]

/-- Names that give a Python fragment dynamic-import capability.
Classification from Python semantics. -/
def dynamicImportNames : List String :=
  ["__import__", "importlib", "imp"]

/-- The retry condition actually computed by the code when the local
`next_url` is bound (`solver.py` line 284), as a Boolean of the elapsed
time, the wrong-answer retry count, and the *bound value* of `next_url`
(which at that point holds the `url` field of the previous successfully
parsed response, not of the current outcome). -/
def codeRetryChoice (t : ℚ) (rc : Nat) (nu : Option String) : Bool :=
  decide (t < 150 ∧ rc < 3 ∧ t + t / ((rc : ℚ) + 1) < 180) ||
    match nu with
    | none => true
    | some u => pyStrip u == ""

/-- Follows the words of the spec only (section 4.1, DECIDING), for
comparison with `codeRetryChoice` from the code: retry-on-same-link is
chosen when all three timing conditions hold, or unconditionally when
*the outcome* carries no `nextUrl`. -/
def specRetryChoice (t : ℚ) (rc : Nat) (outcomeUrl : Option String) : Prop :=
  (t < 150 ∧ rc < 3 ∧ t + t / ((rc : ℚ) + 1) < 180) ∨ outcomeUrl = none

/-- A transition retries the same link: the loop keeps running against the
same URL with the wrong-answer retry counter incremented. -/
def retriesSameLink (s s' : LoopState) : Prop :=
  s'.status = .running ∧ s'.current_url = s.current_url ∧
    s'.retry_count = s.retry_count + 1

lemma codeRetryChoice_iff (t : ℚ) (rc : Nat) (nu : Option String) :
    codeRetryChoice t rc nu = true ↔
      ((t < 150 ∧ rc < 3 ∧ t + t / ((rc : ℚ) + 1) < 180) ∨ nu = none ∨
        ∃ u, nu = some u ∧ pyStrip u = "") := by
  unfold codeRetryChoice
  cases nu <;> simp

lemma retryCondEval_bound (t : ℚ) (rc : Nat) (nu : Option String) :
    retryCondEval t rc (some nu) = .ok (codeRetryChoice t rc nu) := by
  unfold retryCondEval codeRetryChoice
  by_cases h : t < 150 ∧ rc < 3 ∧ t + t / ((rc : ℚ) + 1) < 180
  · simp [h]
  · cases nu <;> simp [h]

/-- Evaluation of the wrong-answer branch when `next_url` is bound. -/
lemma handleWrong_bound (s : LoopState) (now : ℚ) (reason : Option String)
    (url : Option String) (ans : String) (nu : Option String)
    (hnu : s.next_url = some nu) :
    handleWrong s now reason url ans =
      if codeRetryChoice (now - s.start_time) s.retry_count nu then
        { s with retry_count := s.retry_count + 1
                 previously_tried := s.previously_tried ++ [triedEntry ans reason]
                 error_retry_count := some 0 }
      else
        advanceTo
          { s with previously_tried := [], retry_count := 0, error_retry_count := some 0 }
          now url := by
  unfold handleWrong
  rw [hnu, retryCondEval_bound]
  cases codeRetryChoice (now - s.start_time) s.retry_count nu <;> simp

lemma handleWrong_retry (s : LoopState) (now : ℚ) (reason : Option String)
    (url : Option String) (ans : String) (nu : Option String)
    (hnu : s.next_url = some nu)
    (hc : codeRetryChoice (now - s.start_time) s.retry_count nu = true) :
    decideStep s now (.parsed false reason url) ans =
      { s with retry_count := s.retry_count + 1
               previously_tried := s.previously_tried ++ [triedEntry ans reason]
               error_retry_count := some 0 } := by
  show handleWrong s now reason url ans = _
  rw [handleWrong_bound s now reason url ans nu hnu, hc]
  simp

lemma handleWrong_nonretry (s : LoopState) (now : ℚ) (reason : Option String)
    (url : Option String) (ans : String) (nu : Option String)
    (hnu : s.next_url = some nu) (hst : s.status = .running)
    (hc : codeRetryChoice (now - s.start_time) s.retry_count nu = false) :
    ¬ retriesSameLink s (decideStep s now (.parsed false reason url) ans) ∧
    (decideStep s now (.parsed false reason url) ans).retry_count = 0 ∧
    (decideStep s now (.parsed false reason url) ans).previously_tried = [] ∧
    (∀ v, url = some v → truthy v = true →
      (decideStep s now (.parsed false reason url) ans).current_url = v ∧
      (decideStep s now (.parsed false reason url) ans).start_time = now ∧
      (decideStep s now (.parsed false reason url) ans).status = .running) ∧
    (url = none → (decideStep s now (.parsed false reason url) ans).status = .done) := by
  have he : decideStep s now (.parsed false reason url) ans =
      advanceTo
        { s with previously_tried := [], retry_count := 0, error_retry_count := some 0 }
        now url := by
    show handleWrong s now reason url ans = _
    rw [handleWrong_bound s now reason url ans nu hnu, hc]
    simp
  rw [he]
  refine ⟨?_, ?_, ?_, ?_, ?_⟩
  · rcases url with _ | u
    · simp [retriesSameLink, advanceTo]
    · cases ht : truthy u <;> simp [retriesSameLink, advanceTo, ht]
  · rcases url with _ | u
    · simp [advanceTo]
    · cases ht : truthy u <;> simp [advanceTo, ht]
  · rcases url with _ | u
    · simp [advanceTo]
    · cases ht : truthy u <;> simp [advanceTo, ht]
  · rintro u rfl ht
    simp [advanceTo, ht, hst]
  · rintro rfl
    simp [advanceTo]

/-- C1 (amended): for every wrong-answer outcome handled while the local
`next_url` is bound, the orchestrator retries the same link exactly when
the three timing conditions hold (`timeTaken < 150`, `retryCount < 3`,
`projectedRetryTime < 180`, with `timeTaken` measured from the elapsed
start of the ledger) — or unconditionally when the *carried-over*
`next_url` value (the url of the previous successfully parsed response,
not of the current outcome) is `None` or strips to the empty string;
on non-retry it resets the ledger and advances to the url of the current
outcome if truthy, else terminates in DONE. -/
theorem c1_code_retry_rule (s : LoopState) (now : ℚ) (reason : Option String)
    (url : Option String) (ans : String) (nu : Option String)
    (hnu : s.next_url = some nu) (hst : s.status = .running) :
    (retriesSameLink s (decideStep s now (.parsed false reason url) ans) ↔
      ((now - s.start_time < 150 ∧ s.retry_count < 3 ∧
          now - s.start_time + (now - s.start_time) / ((s.retry_count : ℚ) + 1) < 180) ∨
        nu = none ∨ ∃ u, nu = some u ∧ pyStrip u = "")) ∧
    (¬ retriesSameLink s (decideStep s now (.parsed false reason url) ans) →
      (decideStep s now (.parsed false reason url) ans).retry_count = 0 ∧
      (decideStep s now (.parsed false reason url) ans).previously_tried = [] ∧
      (∀ u, url = some u → truthy u = true →
        (decideStep s now (.parsed false reason url) ans).current_url = u ∧
        (decideStep s now (.parsed false reason url) ans).start_time = now ∧
        (decideStep s now (.parsed false reason url) ans).status = .running) ∧
      (url = none → (decideStep s now (.parsed false reason url) ans).status = .done)) := by
  by_cases hc : codeRetryChoice (now - s.start_time) s.retry_count nu = true
  · have he := handleWrong_retry s now reason url ans nu hnu hc
    constructor
    · rw [he]
      simp only [← codeRetryChoice_iff, hc, iff_true]
      simp [retriesSameLink, hst]
    · intro hnr
      exact absurd (by rw [he]; exact ⟨by simp [hst], rfl, rfl⟩) hnr
  · have hc' : codeRetryChoice (now - s.start_time) s.retry_count nu = false := by
      simpa using hc
    obtain ⟨hnr, h1, h2, h3, h4⟩ := handleWrong_nonretry s now reason url ans nu hnu hst hc'
    refine ⟨?_, fun _ => ⟨h1, h2, h3, h4⟩⟩
    rw [← codeRetryChoice_iff, hc']
    simp only [Bool.false_eq_true, iff_false]
    exact hnr

/-- C1 witness: in a state reached after a previous response pointed at
link B, a wrong answer after 10 seconds with retry count 0 retries the
same link. -/
theorem c1_code_retry_rule_witness :
    retriesSameLink ⟨"B", 0, [], 0, some (some "B"), some 0, .running⟩
      (decideStep ⟨"B", 0, [], 0, some (some "B"), some 0, .running⟩ 10
        (.parsed false (some "w") (some "C")) "a1") := by
  have h := c1_code_retry_rule ⟨"B", 0, [], 0, some (some "B"), some 0, .running⟩ 10 (some "w")
    (some "C") "a1" (some "B") rfl rfl
  exact h.1.mpr (Or.inl (by norm_num))

/-- C1 counterexample: the claim chooses retry unconditionally when the
*outcome* carries no nextUrl.  After a first correct response that
advanced to link B, a wrong answer at 200 s whose outcome carries no url
satisfies the retry condition of the spec (`specRetryChoice`), yet the
code does not retry: it terminates the chain in DONE, because line 284
tests the carried-over `next_url` local (still "B"), not the url of the
current outcome. -/
theorem c1_counterexample :
    specRetryChoice 200 0 none ∧
    (decideStep (decideStep (initState "A" 0) 0 (.parsed true none (some "B")) "a0") 200
        (.parsed false (some "w") none) "a1").status = .done ∧
    ¬ retriesSameLink (decideStep (initState "A" 0) 0 (.parsed true none (some "B")) "a0")
        (decideStep (decideStep (initState "A" 0) 0 (.parsed true none (some "B")) "a0") 200
          (.parsed false (some "w") none) "a1") := by
  have h1 : decideStep (initState "A" 0) 0 (.parsed true none (some "B")) "a0"
      = ⟨"B", 0, [], 0, some (some "B"), some 0, .running⟩ := by decide
  have h2 : decideStep (⟨"B", 0, [], 0, some (some "B"), some 0, .running⟩ : LoopState) 200
      (.parsed false (some "w") none) "a1" = ⟨"B", 0, [], 0, some none, some 0, .done⟩ := by
    norm_num [decideStep, handleWrong, retryCondEval, advanceTo,
      show (pyStrip "B" == "") = false from rfl]
  rw [h1, h2]
  refine ⟨Or.inr rfl, rfl, ?_⟩
  rintro ⟨hrun, -, -⟩
  exact absurd hrun (by decide)

/-- C2: a transient submission parse failure, or a wrong answer handled on
the timing-fail path, on the very first link makes `solve_quiz` raise
`UnboundLocalError` out of the orchestrator (`error_retry_count`, and on
the wrong-answer path first `next_url`, are referenced before any
assignment), contradicting the spec rule that recoverable task errors are
never surfaced as exceptions to the caller. -/
theorem c2_first_link_crash :
    (decideStep (initState "A" 0) 5 .failure "a0").status = .crashed ∧
    (decideStep (initState "A" 0) 160 (.parsed false (some "w") (some "B")) "a0").status
      = .crashed := by
  constructor
  · decide
  · norm_num [decideStep, handleWrong, retryCondEval, initState, handleParseError]

/-- C3: past the import gate, the executor returns the fixed no-result
sentinel when the fragment finishes without binding `result`, returns the
descriptive `"Error: ..."` string when the fragment raises, and in every
case returns a string (it is a total function of the fragment and the
execution outcome — nothing escapes its boundary). -/
theorem c3_executor_never_raises (code : String) (run : FragOutcome) :
    (∃ s : String, exec_py code run = s) ∧
    (containsImportStmt code = false → run = .finished none →
      exec_py code run = NO_RESULT_MSG) ∧
    (∀ msg, containsImportStmt code = false → run = .raised msg →
      exec_py code run = "Error: " ++ msg) := by
  refine ⟨⟨exec_py code run, rfl⟩, ?_, ?_⟩
  · rintro h rfl
    simp [exec_py, h]
  · rintro msg h rfl
    simp [exec_py, h]

/-- C3 witness: a fragment that binds nothing yields the sentinel; a
fragment whose execution raises yields the error string. -/
theorem c3_executor_never_raises_witness :
    exec_py "x = 1" (.finished none) = NO_RESULT_MSG ∧
    exec_py "y = 1/0" (.raised "division by zero") = "Error: division by zero" := by
  exact ⟨(c3_executor_never_raises "x = 1" (.finished none)).2.1 (by decide) rfl,
    (c3_executor_never_raises "y = 1/0" (.raised "division by zero")).2.2
      "division by zero" (by decide) rfl⟩

/-- C4 (amended): on retry after a wrong answer the orchestrator
increments `retry_count`, appends the tried (answer, reason) pair and
keeps the current URL — but it then `continue`s to the *top* of the loop,
and every iteration that runs at all re-runs the Step 1-3 fetch/extract
agent: the page is visited and the task re-extracted again; the previous
context is rebuilt, not reused. -/
theorem c4_retry_reruns_fetch (s : LoopState) (now : ℚ) (reason : Option String)
    (url : Option String) (ans : String) (hst : s.status = .running)
    (hc : retryCondEval (now - s.start_time) s.retry_count s.next_url = .ok true) :
    (decideStep s now (.parsed false reason url) ans).retry_count = s.retry_count + 1 ∧
    (decideStep s now (.parsed false reason url) ans).previously_tried
      = s.previously_tried ++ [triedEntry ans reason] ∧
    (decideStep s now (.parsed false reason url) ans).current_url = s.current_url ∧
    ∀ inp : IterInputs,
      (loopIter (decideStep s now (.parsed false reason url) ans) inp).2.fetched = true := by
  have he : decideStep s now (.parsed false reason url) ans =
      { s with retry_count := s.retry_count + 1
               previously_tried := s.previously_tried ++ [triedEntry ans reason]
               error_retry_count := some 0 } := by
    show handleWrong s now reason url ans = _
    unfold handleWrong
    rw [hc]
  rw [he]
  refine ⟨rfl, rfl, rfl, ?_⟩
  intro inp
  unfold loopIter
  rcases inp with ⟨pc, ex, a2, n2, r2⟩
  cases pc <;> cases ex <;> simp [hst]

/-- C4 witness: a concrete retry transition increments the counter and the
following iteration runs the fetch phase. -/
theorem c4_retry_reruns_fetch_witness :
    (decideStep ⟨"A", 0, [], 0, some (some "B"), some 0, .running⟩ 10
        (.parsed false (some "w") (some "B")) "a1").retry_count = 1 ∧
    (loopIter (decideStep ⟨"A", 0, [], 0, some (some "B"), some 0, .running⟩ 10
        (.parsed false (some "w") (some "B")) "a1")
      ⟨some "ctx", some "task", "a2", 20, .parsed false none none⟩).2.fetched = true := by
  have h := c4_retry_reruns_fetch ⟨"A", 0, [], 0, some (some "B"), some 0, .running⟩ 10
    (some "w") (some "B") "a1" rfl (by norm_num [retryCondEval])
  exact ⟨h.1, h.2.2.2 ⟨some "ctx", some "task", "a2", 20, .parsed false none none⟩⟩

/-- C4 counterexample: the claim says the page is not fetched or
re-extracted again for a retry.  In the code, the iteration following a
concrete retry decision executes all phases again, starting with the
Step 1-3 fetch/extract run (`fetched = true`). -/
theorem c4_counterexample :
    (loopIter (decideStep (initState "A" 0) 10 (.parsed false (some "w") (some "B")) "a0")
        ⟨some "page context", some "task", "a1", 20, .parsed false none none⟩).2
      = ⟨true, true, true⟩ ∧
    (decideStep (initState "A" 0) 10
        (.parsed false (some "w") (some "B")) "a0").retry_count = 1 := by
  have h1 : decideStep (initState "A" 0) 10 (.parsed false (some "w") (some "B")) "a0"
      = ⟨"A", 1, [triedEntry "a0" (some "w")], 0, none, some 0, .running⟩ := by
    norm_num [decideStep, handleWrong, retryCondEval, initState]
  rw [h1]
  exact ⟨rfl, rfl⟩

/-- C5: on the first link, a quick wrong answer (retry, which binds
`error_retry_count` to 0 but leaves `next_url` unbound) followed by a
*successfully parsed* wrong answer at 160 s drives the decision through
the `UnboundLocalError` path into the parse-error handler: the parse-error
counter is incremented to 1, not reset to 0, although the response parsed
successfully — contradicting the rule that the counter is reset on any
successful parse. -/
theorem c5_error_counter_not_reset :
    (decideStep (decideStep (initState "A" 0) 10 (.parsed false (some "w1") (some "B")) "a0")
        160 (.parsed false (some "w2") (some "C")) "a1").error_retry_count = some 1 ∧
    (decideStep (decideStep (initState "A" 0) 10 (.parsed false (some "w1") (some "B")) "a0")
        160 (.parsed false (some "w2") (some "C")) "a1").status = .running ∧
    (decideStep (initState "A" 0) 10
        (.parsed false (some "w1") (some "B")) "a0").error_retry_count = some 0 := by
  have h1 : decideStep (initState "A" 0) 10 (.parsed false (some "w1") (some "B")) "a0"
      = ⟨"A", 1, [triedEntry "a0" (some "w1")], 0, none, some 0, .running⟩ := by
    norm_num [decideStep, handleWrong, retryCondEval, initState]
  have h2 : decideStep (⟨"A", 1, [triedEntry "a0" (some "w1")], 0, none, some 0,
        .running⟩ : LoopState) 160 (.parsed false (some "w2") (some "C")) "a1"
      = ⟨"A", 1, [triedEntry "a0" (some "w1")], 0, none, some 1, .running⟩ := by
    norm_num [decideStep, handleWrong, retryCondEval, handleParseError]
  rw [h1, h2]
  exact ⟨rfl, rfl, rfl⟩

/-- C6: every correct outcome resets the wrong-answer retry counter to 0
and clears the tried answers; if the outcome carries a truthy url the loop
advances to it and restarts the elapsed-time tracking, and if it carries
no url the chain terminates in DONE. -/
theorem c6_correct_resets (s : LoopState) (now : ℚ) (r : Option String)
    (url : Option String) (ans : String) (hst : s.status = .running) :
    (decideStep s now (.parsed true r url) ans).retry_count = 0 ∧
    (decideStep s now (.parsed true r url) ans).previously_tried = [] ∧
    (url = none → (decideStep s now (.parsed true r url) ans).status = .done) ∧
    (∀ u, url = some u → truthy u = true →
      (decideStep s now (.parsed true r url) ans).current_url = u ∧
      (decideStep s now (.parsed true r url) ans).start_time = now ∧
      (decideStep s now (.parsed true r url) ans).status = .running) := by
  have he : decideStep s now (.parsed true r url) ans =
      advanceTo
        { s with retry_count := 0, error_retry_count := some 0, previously_tried := [] }
        now url := rfl
  rw [he]
  refine ⟨?_, ?_, ?_, ?_⟩
  · rcases url with _ | u
    · simp [advanceTo]
    · cases ht : truthy u <;> simp [advanceTo, ht]
  · rcases url with _ | u
    · simp [advanceTo]
    · cases ht : truthy u <;> simp [advanceTo, ht]
  · rintro rfl
    simp [advanceTo]
  · rintro u rfl ht
    simp [advanceTo, ht, hst]

/-- C6 witness: a correct outcome carrying url B in a state with two
retries and a tried answer resets the counter, moves to B and restarts
the clock. -/
theorem c6_correct_resets_witness :
    (decideStep ⟨"A", 2, ["t"], 0, none, none, .running⟩ 7
        (.parsed true none (some "B")) "a").retry_count = 0 ∧
    (decideStep ⟨"A", 2, ["t"], 0, none, none, .running⟩ 7
        (.parsed true none (some "B")) "a").current_url = "B" ∧
    (decideStep ⟨"A", 2, ["t"], 0, none, none, .running⟩ 7
        (.parsed true none (some "B")) "a").start_time = 7 := by
  have h := c6_correct_resets ⟨"A", 2, ["t"], 0, none, none, .running⟩ 7 none (some "B") "a" rfl
  exact ⟨h.1, (h.2.2.2 "B" rfl (by decide)).1, (h.2.2.2 "B" rfl (by decide)).2.1⟩

/-- C7 (amended): the `safe_builtins` base-operations table excludes every
process-control, reflective and dynamic-import name, but the module table
bound into the same namespace includes `subprocess`, `os` and `sys`,
which do give the fragment process-control capability. -/
theorem c7_base_ops_minimal :
    (safeBuiltinsNames.all fun n =>
      !(processControlNames.contains n) && !(reflectionNames.contains n) &&
        !(dynamicImportNames.contains n)) = true ∧
    "subprocess" ∈ safeGlobalsModuleNames ∧ "os" ∈ safeGlobalsModuleNames ∧
    "sys" ∈ safeGlobalsModuleNames := by
  decide

/-- C7 counterexample: it is not the case that no name bound in the
sandbox namespace gives process-control, reflective or dynamic-import
capability: `subprocess`, `os` and `sys` are all bound in the namespace
and all are process-control primitives. -/
theorem c7_counterexample :
    ¬ (∀ n ∈ sandboxNames,
        n ∉ processControlNames ∧ n ∉ reflectionNames ∧ n ∉ dynamicImportNames) ∧
    "subprocess" ∈ sandboxNames ∧ "subprocess" ∈ processControlNames ∧
    "os" ∈ sandboxNames ∧ "os" ∈ processControlNames ∧
    "sys" ∈ sandboxNames ∧ "sys" ∈ processControlNames := by
  refine ⟨?_, by decide, by decide, by decide, by decide, by decide, by decide⟩
  intro h
  exact absurd ((h "subprocess" (by decide)).1) (by decide)

/-- C8 (amended): a wrong-answer outcome arriving with
`timeTaken ≥ 150 s` is not retried — provided the carried-over `next_url`
local is bound to a string that does not strip to the empty string; in
that case the ledger is reset and the loop advances to the url of the
outcome if truthy, else terminates in DONE. -/
theorem c8_slow_wrong_advances (s : LoopState) (now : ℚ) (reason : Option String)
    (url : Option String) (ans : String) (u : String)
    (hnu : s.next_url = some (some u)) (hst : s.status = .running)
    (hstrip : pyStrip u ≠ "") (htime : 150 ≤ now - s.start_time) :
    ¬ retriesSameLink s (decideStep s now (.parsed false reason url) ans) ∧
    (decideStep s now (.parsed false reason url) ans).retry_count = 0 ∧
    (∀ v, url = some v → truthy v = true →
      (decideStep s now (.parsed false reason url) ans).current_url = v ∧
      (decideStep s now (.parsed false reason url) ans).status = .running) ∧
    (url = none → (decideStep s now (.parsed false reason url) ans).status = .done) := by
  have hc : codeRetryChoice (now - s.start_time) s.retry_count (some u) = false := by
    unfold codeRetryChoice
    simp [not_lt.mpr htime, hstrip]
  obtain ⟨hnr, h1, _, h3, h4⟩ := handleWrong_nonretry s now reason url ans (some u) hnu hst hc
  exact ⟨hnr, h1, fun v hv ht => ⟨(h3 v hv ht).1, (h3 v hv ht).2.2⟩, h4⟩

/-- C8 witness: with the carried-over `next_url` bound to "B", a wrong
answer at 200 s is not retried and the loop advances to the url of the
outcome. -/
theorem c8_slow_wrong_advances_witness :
    ¬ retriesSameLink ⟨"B", 0, [], 0, some (some "B"), some 0, .running⟩
        (decideStep ⟨"B", 0, [], 0, some (some "B"), some 0, .running⟩ 200
          (.parsed false (some "w") (some "C")) "a1") ∧
    (decideStep ⟨"B", 0, [], 0, some (some "B"), some 0, .running⟩ 200
        (.parsed false (some "w") (some "C")) "a1").current_url = "C" := by
  have h := c8_slow_wrong_advances ⟨"B", 0, [], 0, some (some "B"), some 0, .running⟩ 200
    (some "w") (some "C") "a1" "B" rfl rfl (by decide) (by norm_num)
  exact ⟨h.1, (h.2.2.1 "C" rfl (by decide)).1⟩

/-- C8 counterexample: after a correct response whose url is the
whitespace string " " (truthy in Python, so the loop advances to it), a
wrong answer on that link at 160 s — `timeTaken ≥ 150` with retry count
0 — IS retried, because `next_url.strip() == ""` makes line 284 true. -/
theorem c8_counterexample :
    150 ≤ (160 : ℚ) -
        (decideStep (initState "A" 0) 0 (.parsed true none (some " ")) "a0").start_time ∧
    retriesSameLink (decideStep (initState "A" 0) 0 (.parsed true none (some " ")) "a0")
      (decideStep (decideStep (initState "A" 0) 0 (.parsed true none (some " ")) "a0") 160
        (.parsed false (some "w") (some "B")) "a1") ∧
    (decideStep (decideStep (initState "A" 0) 0 (.parsed true none (some " ")) "a0") 160
        (.parsed false (some "w") (some "B")) "a1").retry_count = 1 := by
  have h1 : decideStep (initState "A" 0) 0 (.parsed true none (some " ")) "a0"
      = ⟨" ", 0, [], 0, some (some " "), some 0, .running⟩ := by decide
  have h2 : decideStep (⟨" ", 0, [], 0, some (some " "), some 0, .running⟩ : LoopState) 160
      (.parsed false (some "w") (some "B")) "a1"
      = ⟨" ", 1, [triedEntry "a1" (some "w")], 0, some (some " "), some 0, .running⟩ := by
    norm_num [decideStep, handleWrong, retryCondEval,
      show (pyStrip " " == "") = true from rfl]
  rw [h1, h2]
  exact ⟨by norm_num, ⟨rfl, rfl, rfl⟩, rfl⟩

/-- C9: every submission is POSTed to the single fixed endpoint — the
constructed call targets the hard-coded URL whatever submission url the
extraction step produced (the call is invariant in that argument) — and
the cookies, referer, payload url and payload answer are those of the
current link and attempt. -/
theorem c9_fixed_submit_endpoint (email secret current_url answer : String)
    (cookies : List (String × String)) (su su' : String) :
    (mkSubmitCall email secret current_url answer cookies su).target
      = "https://tds-llm-analysis.s-anand.net/submit" ∧
    mkSubmitCall email secret current_url answer cookies su
      = mkSubmitCall email secret current_url answer cookies su' ∧
    (mkSubmitCall email secret current_url answer cookies su).referer = current_url ∧
    (mkSubmitCall email secret current_url answer cookies su).cookies = cookies ∧
    (mkSubmitCall email secret current_url answer cookies su).payload_url = current_url ∧
    (mkSubmitCall email secret current_url answer cookies su).payload_answer = answer := by
  exact ⟨rfl, rfl, rfl, rfl, rfl, rfl⟩

/-- C10: the executor rejects exactly the fragments whose text contains
the substring `"import "` — the check is purely textual, so the rejection
output does not depend on what executing the fragment would do — and a
fragment without that substring is executed, its outcome determining the
returned string. -/
theorem c10_import_substring_gate (code : String) (run run2 : FragOutcome) :
    (containsImportStmt code = true →
      exec_py code run = REJECT_MSG ∧ exec_py code run = exec_py code run2) ∧
    (containsImportStmt code = false →
      exec_py code run =
        (match run with
          | .raised msg => "Error: " ++ msg
          | .finished (some v) => v
          | .finished none => NO_RESULT_MSG)) := by
  constructor
  · intro h
    simp [exec_py, h]
  · intro h
    simp [exec_py, h]

/-- C10 witness: an occurrence of the substring inside a comment is
rejected; an occurrence inside a string literal is rejected regardless of
the execution outcome; a fragment without the substring executes. -/
theorem c10_import_substring_gate_witness :
    exec_py "x = 1 # import os" (.finished (some "2")) = REJECT_MSG ∧
    exec_py "s = \x27import json\x27" (.finished (some "2"))
      = exec_py "s = \x27import json\x27" (.raised "boom") ∧
    exec_py "result = 2 + 2" (.finished (some "4")) = "4" := by
  refine ⟨?_, ?_, ?_⟩
  · exact ((c10_import_substring_gate "x = 1 # import os" (.finished (some "2"))
      (.raised "x")).1 (by decide)).1
  · exact ((c10_import_substring_gate "s = \x27import json\x27" (.finished (some "2"))
      (.raised "boom")).1 (by decide)).2
  · exact (c10_import_substring_gate "result = 2 + 2" (.finished (some "4"))
      (.raised "x")).2 (by decide)

end PuzzleSolver
